import Mathlib

/-!
Verification development for the RMS Assistant browser extension
(side panel chat client, service worker, and content scripts).

The JavaScript sources are shallowly embedded as executable Lean
definitions: DOM queries become oracle functions on a page model,
stateful handlers become explicit state-passing functions, and the
wire protocol becomes tagged inductive frames.
-/

namespace RMS

/-! ## String helpers (JS semantics)

`containsSub hay needle` models JavaScript `hay.includes(needle)`:
substring containment, with the empty needle always contained. -/

def containsSub (hay needle : String) : Bool :=
  (List.range (hay.data.length + 1)).any fun i => needle.data.isPrefixOf (hay.data.drop i)

/-- JS `toLowerCase` (character-wise, as `String.toLower`). -/
def lowerStr (s : String) : String := String.mk (s.data.map Char.toLower)

/-- JS `toUpperCase` (character-wise, as `String.toUpper`). -/
def upperStr (s : String) : String := String.mk (s.data.map Char.toUpper)

/-- JS `substring(0, n)` (character-wise, as `String.take`). -/
def takeStr (s : String) (n : Nat) : String := String.mk (s.data.take n)

/-! ## DOM model for the content-script element resolver
(src/content/browser-tools.js)

A page is a bundle of query oracles: `css` models `document.querySelector`,
`byId` models `document.getElementById`, `byName` / `byFieldref` /
`byPlaceholder` model the corresponding attribute-selector queries
(`byPlaceholder` is the case-insensitive substring query
`[placeholder*="..." i]`), `labels` and `buttons` are the label and
button-like elements in document order. -/

structure Elem where
  tagName : String := ""
  idAttr : String := ""
  nameAttr : String := ""
  text : String := ""
  value : String := ""
deriving DecidableEq, Repr

structure ElemDesc where
  tag : String
  id : String
  name : String
  text : String
deriving DecidableEq, Repr

/-- `describeElement` from browser-tools.js: tag lowercased, text truncated to 50. -/
def describeElement (e : Elem) : ElemDesc :=
  { tag := lowerStr e.tagName, id := e.idAttr, name := e.nameAttr, text := takeStr e.text 50 }

/-- A `<label>` element: its text content, `for` attribute (`none` models an
absent or empty `htmlFor`, both falsy in JS), first nested
input/select/textarea, and the first `<input>` following it in document
order (the target of the XPath `following::input[1]` fallback). -/
structure LabelEl where
  text : String := ""
  htmlFor : Option String := none
  nested : Option Elem := none
  following : Option Elem := none

structure Target where
  selector : Option String := none
  id : Option String := none
  name : Option String := none
  fieldref : Option String := none
  label : Option String := none
  placeholder : Option String := none
  buttonText : Option String := none

structure Page where
  css : String → Option Elem
  byId : String → Option Elem
  byName : String → Option Elem
  byFieldref : String → Option Elem
  labels : List LabelEl
  byPlaceholder : String → Option Elem
  buttons : List Elem

/-- First pass of `findByLabel`: scan `<label>` elements in document order;
on a (case-insensitive) text match, try `getElementById(label.htmlFor)`,
then a nested input, and otherwise keep scanning. -/
def labelScan (p : Page) (search : String) : List LabelEl → Option Elem
  | [] => none
  | l :: rest =>
    if containsSub (lowerStr l.text) search then
      match l.htmlFor with
      | some f =>
        match p.byId f with
        | some e => some e
        | none =>
          match l.nested with
          | some e => some e
          | none => labelScan p search rest
      | none =>
        match l.nested with
        | some e => some e
        | none => labelScan p search rest
    else labelScan p search rest

/-- XPath fallback of `findByLabel`:
`//label[contains(translate(text(),...),search)]/following::input[1]`,
first ordered node — the first matching label that has an input after it
in document order. -/
def labelFollowingScan (search : String) : List LabelEl → Option Elem
  | [] => none
  | l :: rest =>
    if containsSub (lowerStr l.text) search then
      match l.following with
      | some e => some e
      | none => labelFollowingScan search rest
    else labelFollowingScan search rest

/-- `findByLabel` from browser-tools.js. -/
def findByLabel (p : Page) (labelText : String) : Option Elem :=
  let search := lowerStr labelText
  match labelScan p search p.labels with
  | some e => some e
  | none => labelFollowingScan search p.labels

/-- Button-text strategy of `findElement`: first button-like element whose
text content or value contains the search text (case-insensitive). -/
def findByButtonText (p : Page) (txt : String) : Option Elem :=
  p.buttons.find? fun b =>
    containsSub (lowerStr b.text) (lowerStr txt) || containsSub (lowerStr b.value) (lowerStr txt)

/-- `findElement` from browser-tools.js: if a `selector` hint is present the
result of `document.querySelector(selector)` is returned immediately
(matching or not); otherwise the id, name, fieldref, label, placeholder and
buttonText hints are tried in that order, a hint being skipped when absent
or when its query fails. -/
def findElement (p : Page) (t : Target) : Option Elem :=
  match t.selector with
  | some s => p.css s
  | none =>
    (t.id.bind p.byId) <|> (t.name.bind p.byName) <|> (t.fieldref.bind p.byFieldref) <|>
    (t.label.bind (findByLabel p)) <|> (t.placeholder.bind p.byPlaceholder) <|>
    (t.buttonText.bind (findByButtonText p))

/-- The ordered non-selector strategy chain of `findElement`, as a list of
attempted results. -/
def strategyResults (p : Page) (t : Target) : List (Option Elem) :=
  [t.id.bind p.byId, t.name.bind p.byName, t.fieldref.bind p.byFieldref,
   t.label.bind (findByLabel p), t.placeholder.bind p.byPlaceholder,
   t.buttonText.bind (findByButtonText p)]

/-! ## Fill execution (C4)

A fill run is recorded as a trace of primitive DOM effects, in execution
order, together with the returned result envelope and the final value of
the resolved element. -/

inductive FillStep where
  | focus
  | setValNative (v : String)
  | setValDirect (v : String)
  | fireEvent (ev : String)
deriving DecidableEq, Repr

structure FillResult where
  success : Bool
  error : Option String := none
  element : Option ElemDesc := none
deriving DecidableEq, Repr

structure FillOutcome where
  result : FillResult
  steps : List FillStep
  finalValue : Option String
deriving DecidableEq, Repr

/-- `fillField` from src/content/browser-tools.js: resolve the target via
`findElement`; on success focus, assign the value through the native
value setter when available (direct assignment otherwise), then dispatch
`input`, `change`, `blur`, and report the element descriptor. -/
def fillField (p : Page) (t : Target) (v : String) (hasNativeSetter : Bool) : FillOutcome :=
  match findElement p t with
  | none => { result := { success := false, error := some "Element not found" }, steps := [], finalValue := none }
  | some e =>
    { result := { success := true, element := some (describeElement e) },
      steps := [FillStep.focus,
                if hasNativeSetter then FillStep.setValNative v else FillStep.setValDirect v,
                FillStep.fireEvent "input", FillStep.fireEvent "change", FillStep.fireEvent "blur"],
      finalValue := some v }

/-- Environment for the service-worker fill path: whether an active tab
exists, the page in that tab (as a `querySelector` oracle), and whether the
injected script's return value survives back to the service worker. -/
structure SWFillEnv where
  activeTab : Bool
  css : String → Option Elem
  injectionReturns : Bool := true

/-- `fillField` from the service worker (src/unnamed/part_002): resolve the
CSS selector in the active tab, assign through the native value setter, then
dispatch `input` and `change` (no focus, no blur), returning a bare
success envelope. -/
def swFillField (env : SWFillEnv) (sel v : String) : FillOutcome :=
  if env.activeTab then
    if env.injectionReturns then
      match env.css sel with
      | some _ =>
        { result := { success := true },
          steps := [FillStep.setValNative v, FillStep.fireEvent "input", FillStep.fireEvent "change"],
          finalValue := some v }
      | none => { result := { success := false, error := some "Element not found" }, steps := [], finalValue := none }
    else { result := { success := false, error := some "Script execution failed" }, steps := [], finalValue := none }
  else { result := { success := false, error := some "No active tab" }, steps := [], finalValue := none }

/-! ## Radio selection (C9) — `selectRadio` in src/content/browser-tools.js

An input element carries its `type` attribute, `id`, `name`, the text of
the `label[for=id]` element associated to it (if any), and its parent
element's text. `p.inputs` lists every input element in document order. -/

structure InputEl where
  typ : String := ""
  idAttr : String := ""
  nameAttr : String := ""
  labelText : Option String := none
  parentText : Option String := none
deriving DecidableEq, Repr

structure RadioPage where
  inputs : List InputEl

/-- A JavaScript value as received for the radio request, for the strict
(`===`) comparisons in `selectRadio`. -/
inductive JSVal where
  | jsBool (b : Bool)
  | jsStr (s : String)
  | jsNum (n : Int)
deriving DecidableEq, Repr

/-- `value === true || value === 'yes' || value === 'true'` from `selectRadio`. -/
def isYesVal : JSVal → Bool
  | .jsBool b => b
  | .jsStr s => s == "yes" || s == "true"
  | _ => false

def memberLabel (r : InputEl) : String := lowerStr (r.labelText.getD "")

def memberParent (r : InputEl) : String := lowerStr (r.parentText.getD "")

def memberHasYes (r : InputEl) : Bool :=
  containsSub (memberLabel r) "yes" || containsSub (memberParent r) "yes"

def memberHasNo (r : InputEl) : Bool :=
  containsSub (memberLabel r) "no" || containsSub (memberParent r) "no"

structure RadioResult where
  success : Bool
  selected : Option String := none
  clicked : Option InputEl := none
  error : Option String := none
deriving DecidableEq, Repr

/-- The outer loop of `selectRadio` over the `input[type="radio"]` node list:
on a group-label match, scan the `input[name=...]` group for the first
member whose own label or parent text agrees with the requested yes/no
value; if none matches, keep scanning the remaining radios. -/
def selectRadioGo (p : RadioPage) (searchText : String) (v : JSVal) : List InputEl → RadioResult
  | [] => { success := false, error := some "Radio button not found" }
  | r :: rest =>
    if containsSub (memberLabel r) searchText || containsSub (memberParent r) searchText then
      let group := p.inputs.filter fun i => i.nameAttr == r.nameAttr
      match group.find? (fun i => (isYesVal v && memberHasYes i) || (!isYesVal v && memberHasNo i)) with
      | some hit =>
        { success := true, selected := some (if isYesVal v then "Yes" else "No"), clicked := some hit }
      | none => selectRadioGo p searchText v rest
    else selectRadioGo p searchText v rest

/-- `selectRadio` from src/content/browser-tools.js (the target is taken as
the label-search string, covering both the `target.label` and plain-string
call shapes, lowercased as in the source). -/
def selectRadioButton (p : RadioPage) (targetLabel : String) (v : JSVal) : RadioResult :=
  selectRadioGo p (lowerStr targetLabel) v (p.inputs.filter fun i => i.typ == "radio")

/-! ## JavaScript values for tool results (C6, C2) -/

inductive JVal where
  | jnull
  | jbool (b : Bool)
  | jnum (n : Int)
  | jstr (s : String)
  | jarr (xs : List JVal)
  | jobj (fields : List (String × JVal))

/-- JS truthiness (with `jnull` also covering `undefined`). -/
def truthy : JVal → Bool
  | .jnull => false
  | .jbool b => b
  | .jnum n => n != 0
  | .jstr s => s != ""
  | .jarr _ => true
  | .jobj _ => true

/-- Property access `v[k]`; `none` is JS `undefined`. -/
def getField : JVal → String → Option JVal
  | .jobj fs, k => fs.lookup k
  | _, _ => none

/-- Property access collapsing `undefined` to a falsy value. -/
def getFieldD (v : JVal) (k : String) : JVal := (getField v k).getD JVal.jnull

/-- JS `a || b`. -/
def jsOr (a b : JVal) : JVal := if truthy a then a else b

/-- JS `.length`: defined for arrays and strings, `undefined` otherwise. -/
def jlen : JVal → Option Nat
  | .jarr xs => some xs.length
  | .jstr s => some s.length
  | _ => none

/-- `.length` rendered into a template string. -/
def lenShow (v : JVal) : String :=
  match jlen v with
  | some n => toString n
  | none => "undefined"

/-- JS string conversion as used in template literals. -/
def jshow : JVal → String
  | .jnull => "null"
  | .jbool b => cond b "true" "false"
  | .jnum n => toString n
  | .jstr s => s
  | .jarr xs => String.intercalate "," (xs.attach.map fun x => jshow x.1)
  | .jobj _ => "[object Object]"
decreasing_by
  have h := List.sizeOf_lt_of_mem x.2
  simp only [JVal.jarr.sizeOf_spec]
  omega

/-- The `switch (toolKey)` of `summarizeToolResult` in sidepanel.js;
`none` models falling through to the default summary. -/
def summarizeSwitch (toolKey : String) (result : JVal) : Option String :=
  if toolKey == "search_leads" then
    let leads := getFieldD result "leads"
    if truthy leads then
      some ("Found " ++ lenShow leads ++ " lead" ++ (if jlen leads == some 1 then "" else "s"))
    else match result with
      | .jarr xs => some ("Found " ++ toString xs.length ++ " lead" ++ (if xs.length == 1 then "" else "s"))
      | _ => none
  else if toolKey == "get_lead" then
    let nm := jsOr (getFieldD result "name") (getFieldD result "display_name")
    if truthy nm then some ("Loaded: " ++ jshow nm) else none
  else if toolKey == "search_insured" then
    let v := getFieldD result "value"
    if truthy v then
      some ("Found " ++ lenShow v ++ " insured" ++ (if jlen v == some 1 then "" else "s"))
    else match result with
      | .jarr xs => some ("Found " ++ toString xs.length ++ " insured" ++ (if xs.length == 1 then "" else "s"))
      | _ => none
  else if toolKey == "get_dot_info" then
    let carrier := getFieldD result "carrier"
    if truthy carrier then
      some ("Found: " ++ jshow (jsOr (jsOr (getFieldD carrier "legalName") (getFieldD carrier "dbaName")) (JVal.jstr "Carrier")))
    else
      let ln := getFieldD result "legalName"
      if truthy ln then some ("Found: " ++ jshow ln) else none
  else if toolKey == "get_policies" then
    match result with
    | .jarr xs => some ("Found " ++ toString xs.length ++ " polic" ++ (if xs.length == 1 then "y" else "ies"))
    | _ => none
  else if toolKey == "navigate" then some "Navigation complete"
  else if toolKey == "click" then some "Click complete"
  else if toolKey == "fill_form" then some "Form filled"
  else if toolKey == "screenshot" then some "Screenshot captured"
  else none

/-- `summarizeToolResult` from src/sidepanel/sidepanel.js. -/
def summarizeToolResult (toolKey : String) (result : JVal) : String :=
  if !truthy result then "No results"
  else match result with
    | .jstr s =>
      if s.startsWith "Error" then takeStr s 100
      else if s.length > 80 then takeStr s 77 ++ "..." else s
    | _ =>
      match summarizeSwitch toolKey result with
      | some s => s
      | none =>
        match result with
        | .jarr xs => "Returned " ++ toString xs.length ++ " item" ++ (if xs.length == 1 then "" else "s")
        | .jobj _ => "Data retrieved"
        | _ => "Done"

/-! ## Side-panel conversation state (src/sidepanel/sidepanel.js)

A chat message as stored in `state.messages`: ordinary user/assistant
messages carry `id`/`streaming` while tool-status entries carry the
`type:'tool'` options (`mtype` here, since `type` is reserved). -/

structure TabInfo where
  tabId : Nat
  url : String
  title : String
deriving DecidableEq, Repr

structure PendingFile where
  name : String
  mimeType : String
  base64 : String
  size : Nat
deriving DecidableEq, Repr

structure ChatMsg where
  role : String
  content : String
  timestamp : Nat
  id : Option String := none
  streaming : Bool := false
  mtype : Option String := none
  toolId : Option String := none
  toolKey : Option String := none
  toolStatus : Option String := none
  toolSummary : Option String := none
  toolArgs : Option JVal := none

structure SPState where
  messages : List ChatMsg := []
  currentStreamId : Option String := none
  currentToolId : Option String := none
  isStreaming : Bool := false
  connected : Bool := false
  reconnectAttempts : Nat := 0
  pendingFiles : List PendingFile := []
  currentTab : Option TabInfo := none

/-- Outbound wire frames (§6 of the protocol), restricted to those the
modeled handlers emit. -/
inductive OutFrame where
  | messageFrame (content : String) (tabState : Option TabInfo) (files : Option (List PendingFile))
  | tabStateFrame (tab : TabInfo)
  | browserActionResult (actionId : String) (result : JVal)

/-- Observable side effects of the side-panel handlers. -/
inductive Effect where
  | sendFrame (f : OutFrame)
  | scheduleReconnect (delayMs : Nat)
  | alertUser (msg : String)
  | forwardToServiceWorker (actionId : String)
  | persistMessages (msgs : List ChatMsg)

/-- Inbound protocol frames by `type` tag (payload limited to the fields
the side panel reads). -/
inductive InMsg where
  | responseStart
  | responseChunk (content : String)
  | responseEnd
  | toolCall (tool : String) (args : JVal)
  | toolResult (result : JVal)
  | actionRequest (actionId : String)
  | errorFrame (message : String)
  | structuredData
  | suggestedTask
  | taskCreated
  | browserAction (actionId : String)
  | agentMessage (message : String)
  | carrierQuoteProgress

/-- `saveMessages`: persist `state.messages.slice(-100)` — the last 100
messages. -/
def saveMessages (msgs : List ChatMsg) : List ChatMsg :=
  msgs.drop (msgs.length - 100)

/-- `loadMessages`: push every stored message onto the in-memory history. -/
def loadMessages (st : SPState) (stored : List ChatMsg) : SPState :=
  { st with messages := st.messages ++ stored }

/-- `addMessage`: append, render, persist. -/
def addMessage (st : SPState) (m : ChatMsg) : SPState × List Effect :=
  let msgs := st.messages ++ [m]
  ({ st with messages := msgs }, [Effect.persistMessages (saveMessages msgs)])

/-- Mutate the first list entry satisfying `pred` (JS `Array.find` followed
by in-place mutation). -/
def updateFirst (pred : ChatMsg → Bool) (f : ChatMsg → ChatMsg) : List ChatMsg → List ChatMsg
  | [] => []
  | m :: rest => if pred m then f m :: rest else m :: updateFirst pred f rest

/-- The `isError` test in the `tool_result` branch. -/
def toolResultIsError (result : JVal) : Bool :=
  truthy result && (truthy (getFieldD result "error") ||
    (match result with | .jstr s => s.startsWith "Error" | _ => false))

/-- `handleServerMessage` from src/sidepanel/sidepanel.js, as a state
transformer; `now` is the value of `Date.now()` during this event. -/
def handleServerMessage (now : Nat) (st : SPState) : InMsg → SPState × List Effect
  | .responseStart =>
    let sid := "stream-" ++ toString now
    let m : ChatMsg := { role := "assistant", content := "", timestamp := now,
                         id := some sid, streaming := true }
    ({ st with isStreaming := true, messages := st.messages ++ [m],
               currentStreamId := some sid }, [])
  | .responseChunk c =>
    match st.currentStreamId with
    | some sid =>
      ({ st with messages := updateFirst (fun m => m.id == some sid)
                   (fun m => { m with content := m.content ++ c }) st.messages }, [])
    | none => (st, [])
  | .responseEnd =>
    match st.currentStreamId with
    | some _ =>
      ({ st with currentStreamId := none, isStreaming := false },
       [Effect.persistMessages (saveMessages st.messages)])
    | none => (st, [])
  | .toolCall tool args =>
    let tid := "tool-" ++ toString now
    let m : ChatMsg := { role := "assistant", content := "", timestamp := now,
                         mtype := some "tool", toolId := some tid, toolKey := some tool,
                         toolStatus := some "loading", toolArgs := some args }
    let p := addMessage st m
    ({ p.1 with currentToolId := some tid }, p.2)
  | .toolResult result =>
    match st.currentToolId with
    | none => (st, [])
    | some tid =>
      let isErr := toolResultIsError result
      let msgs := updateFirst (fun m => m.toolId == some tid)
        (fun m => { m with toolStatus := some (if isErr then "error" else "complete"),
                           toolSummary := some (summarizeToolResult (m.toolKey.getD "") result) })
        st.messages
      ({ st with messages := msgs, currentToolId := none }, [])
  | .browserAction actionId => (st, [Effect.forwardToServiceWorker actionId])
  | .errorFrame msg =>
    addMessage st { role := "assistant", content := "Error: " ++ msg, timestamp := now }
  | .agentMessage msg =>
    let p := addMessage st { role := "assistant", content := msg, timestamp := now }
    (p.1, p.2 ++ [Effect.persistMessages (saveMessages p.1.messages)])
  | _ => (st, [])

/-- Result frame the `browser_action` response callback sends back:
one `browser_action_result` tagged with the original `actionId` when the
socket is still open, nothing otherwise (`wsOpen` is
`state.ws && state.ws.readyState === OPEN` at callback time). -/
def browserActionCallbackFrames (wsOpen : Bool) (actionId : String) (response : Option JVal) :
    List OutFrame :=
  if wsOpen then
    [OutFrame.browserActionResult actionId
      (match response with
       | some v => if truthy v then v else JVal.jobj [("error", JVal.jstr "No response from service worker")]
       | none => JVal.jobj [("error", JVal.jstr "No response from service worker")])]
  else []

/-! ## Transport: connect / reconnect (C8) -/

structure TransportConfig where
  reconnectDelay : Nat
  maxReconnectAttempts : Nat
deriving DecidableEq, Repr

/-- The side panel's `CONFIG` object. -/
def sidepanelConfig : TransportConfig :=
  { reconnectDelay := 3000, maxReconnectAttempts := 5 }

/-- `ws.onopen`: mark connected, reset the retry counter, send the current
tab state (`sendTabState` sends only when a current tab is known). -/
def wsOnOpen (st : SPState) : SPState × List Effect :=
  ({ st with connected := true, reconnectAttempts := 0 },
   match st.currentTab with
   | some t => [Effect.sendFrame (OutFrame.tabStateFrame t)]
   | none => [])

/-- `ws.onclose`: mark disconnected; schedule one reconnect after the fixed
delay while under the retry cap. -/
def wsOnClose (cfg : TransportConfig) (st : SPState) : SPState × List Effect :=
  if st.reconnectAttempts < cfg.maxReconnectAttempts then
    ({ st with connected := false, reconnectAttempts := st.reconnectAttempts + 1 },
     [Effect.scheduleReconnect cfg.reconnectDelay])
  else ({ st with connected := false }, [])

/-- Number of reconnects scheduled along `n` consecutive close events with
no successful open in between (scheduling a reconnect is the only effect
`wsOnClose` emits, so the effect count is the schedule count). -/
def closeRunSchedules (cfg : TransportConfig) : SPState → Nat → Nat
  | _, 0 => 0
  | st, n + 1 =>
    let p := wsOnClose cfg st
    p.2.length + closeRunSchedules cfg p.1 n

/-! ## File attachment (C7) -/

structure UFile where
  name : String
  mimeType : String
  size : Nat
  bytes : List Nat
deriving DecidableEq, Repr

def maxFileSize : Nat := 10 * 1024 * 1024

def allowedTypes : List String :=
  ["application/pdf", "image/png", "image/jpeg", "image/jpg"]

def fileAccepted (f : UFile) : Bool :=
  !(decide (f.size > maxFileSize)) && allowedTypes.contains f.mimeType

def b64Alphabet : List Char :=
  "ABCDEFGHIJKLMNOPQRSTUVWXYZabcdefghijklmnopqrstuvwxyz0123456789+/".data

def b64Char (n : Nat) : Char := b64Alphabet.getD n 'A'

/-- Standard base64 of a byte list (each byte taken mod 256 implicitly by
the caller supplying bytes < 256). -/
def base64Encode : List Nat → String
  | [] => ""
  | [a] =>
    String.mk [b64Char (a / 4), b64Char (a % 4 * 16)] ++ "=="
  | [a, b] =>
    String.mk [b64Char (a / 4), b64Char (a % 4 * 16 + b / 16), b64Char (b % 16 * 4)] ++ "="
  | a :: b :: c :: rest =>
    String.mk [b64Char (a / 4), b64Char (a % 4 * 16 + b / 16),
               b64Char (b % 16 * 4 + c / 64), b64Char (c % 64)] ++ base64Encode rest

/-- `FileReader.readAsDataURL`: a data URL embedding the MIME type and the
base64-encoded bytes. -/
def fileToBase64 (f : UFile) : String :=
  "data:" ++ f.mimeType ++ ";base64," ++ base64Encode f.bytes

/-- The pending-attachment record built by `handleFiles` for an accepted file. -/
def toPendingFile (f : UFile) : PendingFile :=
  { name := f.name, mimeType := f.mimeType, base64 := fileToBase64 f, size := f.size }

/-- `handleFiles` from sidepanel.js: oversized or disallowed files raise a
user-visible alert and are skipped; accepted files are encoded and queued.
Returns the new pending list and the alerts, in file order. -/
def handleFiles (pending : List PendingFile) : List UFile → List PendingFile × List String
  | [] => (pending, [])
  | f :: rest =>
    if f.size > maxFileSize then
      let p := handleFiles pending rest
      (p.1, ("File \"" ++ f.name ++ "\" is too large. Max size is 10MB.") :: p.2)
    else if !allowedTypes.contains f.mimeType then
      let p := handleFiles pending rest
      (p.1, ("File \"" ++ f.name ++ "\" is not supported. Use PDF, PNG, or JPG.") :: p.2)
    else
      handleFiles (pending ++ [toPendingFile f]) rest

/-- `sendMessage` from sidepanel.js (outbound half): blank input with no
attachments is ignored; otherwise the display message is appended, the
pending attachments are captured and cleared, and — when connected — one
`message` frame is sent whose `files` field is the captured list when
non-empty. -/
def sendMessage (st : SPState) (content : String) (now : Nat) : SPState × List OutFrame :=
  if content.trim == "" && st.pendingFiles.isEmpty then (st, [])
  else
    let filesToSend := st.pendingFiles
    let displayContent :=
      if filesToSend.isEmpty then content
      else
        let names := String.intercalate ", " (filesToSend.map (fun f => f.name))
        if content == "" then "[Attached: " ++ names ++ "]"
        else content ++ "\n[Attached: " ++ names ++ "]"
    let userMsg : ChatMsg := { role := "user", content := displayContent, timestamp := now }
    let st2 := { st with messages := st.messages ++ [userMsg], pendingFiles := [] }
    if st.connected then
      (st2, [OutFrame.messageFrame
               (if content == "" then "Please analyze this file." else content)
               st.currentTab
               (if filesToSend.isEmpty then none else some filesToSend)])
    else (st2, [])

/-! ## Service-worker browser actions (C2) — src/unnamed/part_002

The environment bundles the chrome APIs and the active tab's page as
oracles: `activeTab` / `tabsById` model `chrome.tabs`, `captureOutcome`
the screenshot capture (which may reject), `css` the page's
`querySelector`, `selectAt` the select-element lookup (its options as
value/text pairs), `labelTexts` / `radioParents` the label and
radio-parent texts in document order, `injectionReturns` whether the
injected function's return value reaches the service worker
(`results[0]?.result`), and `apiError` a rejection thrown by a chrome
call after the tab query. -/

structure OptionEl where
  val : String
  text : String
deriving DecidableEq, Repr

structure BResult where
  success : Bool
  error : Option String := none
  info : Option String := none
deriving DecidableEq, Repr

structure SWEnv where
  activeTab : Option TabInfo
  tabsById : Nat → Option TabInfo
  captureOutcome : Except String String
  css : String → Option Elem
  selectAt : String → Option (List OptionEl)
  labelTexts : List String
  radioParents : List String
  injectionReturns : Bool := true
  apiError : Option String := none

/-- `navigateToUrl`. -/
def swNavigate (env : SWEnv) : Except String BResult :=
  match env.activeTab with
  | some t =>
    match env.apiError with
    | some e => Except.error e
    | none => Except.ok { success := true, info := some (toString t.tabId) }
  | none => Except.ok { success := false, error := some "No active tab" }

/-- `captureScreenshot` (catches its own rejection). -/
def swCaptureScreenshot (env : SWEnv) : Except String BResult :=
  match env.captureOutcome with
  | Except.ok dataUrl => Except.ok { success := true, info := some dataUrl }
  | Except.error e => Except.ok { success := false, error := some e }

/-- `getTabState`. -/
def swGetTabState (env : SWEnv) : Except String BResult :=
  match env.activeTab with
  | some t => Except.ok { success := true, info := some t.url }
  | none => Except.ok { success := false, error := some "No active tab" }

/-- `getSpecificTabState` (catches the `chrome.tabs.get` rejection). -/
def swGetSpecificTabState (env : SWEnv) (tid : Nat) : Except String BResult :=
  match env.tabsById tid with
  | some t => Except.ok { success := true, info := some t.url }
  | none => Except.ok { success := false, error := some ("Tab " ++ toString tid ++ " not found") }

/-- `executeInTab` — always `{success:true}` with whatever the script
returned, once a tab exists and the injection does not throw. -/
def swExecuteInTab (env : SWEnv) : Except String BResult :=
  match env.activeTab with
  | none => Except.ok { success := false, error := some "No active tab" }
  | some _ =>
    match env.apiError with
    | some e => Except.error e
    | none => Except.ok { success := true }

/-- `clickElement` (service-worker version, plain `querySelector`). -/
def swClickInTab (env : SWEnv) (sel : String) : Except String BResult :=
  match env.activeTab with
  | none => Except.ok { success := false, error := some "No active tab" }
  | some _ =>
    match env.apiError with
    | some e => Except.error e
    | none =>
      if env.injectionReturns then
        match env.css sel with
        | some _ => Except.ok { success := true }
        | none => Except.ok { success := false, error := some "Element not found" }
      else Except.ok { success := false, error := some "Script execution failed" }

/-- `fillField` (service-worker version), routed through the C4 model. -/
def swFillInTab (env : SWEnv) (sel v : String) : Except String BResult :=
  match env.activeTab with
  | none => Except.ok { success := false, error := some "No active tab" }
  | some _ =>
    match env.apiError with
    | some e => Except.error e
    | none =>
      let o := swFillField { activeTab := true, css := env.css,
                             injectionReturns := env.injectionReturns } sel v
      Except.ok { success := o.result.success, error := o.result.error }

/-- `getPageState` (service-worker version). -/
def swGetPageState (env : SWEnv) : Except String BResult :=
  match env.activeTab with
  | none => Except.ok { success := false, error := some "No active tab" }
  | some _ =>
    match env.apiError with
    | some e => Except.error e
    | none => Except.ok { success := true }

/-- `selectOption` (service-worker version): the selector string may list
comma-separated alternatives; options match by exact value or
case-insensitive substring of the option text. -/
def swSelectOption (env : SWEnv) (sel val : String) : Except String BResult :=
  match env.activeTab with
  | none => Except.ok { success := false, error := some "No active tab" }
  | some _ =>
    match env.apiError with
    | some e => Except.error e
    | none =>
      if env.injectionReturns then
        let subs := (sel.splitOn ",").map (fun s => s.trim)
        match subs.findSome? env.selectAt with
        | none => Except.ok { success := false, error := some "Select element not found" }
        | some opts =>
          match opts.find? (fun o => o.val == val || containsSub (upperStr o.text) (upperStr val)) with
          | some _ => Except.ok { success := true }
          | none => Except.ok { success := false, error := some ("Option " ++ val ++ " not found in select") }
      else Except.ok { success := false, error := some "Script execution failed" }

/-- `clickRadio` (service-worker version): first matching label is clicked
(with or without an associated radio), then radio parents are searched. -/
def swClickRadio (env : SWEnv) (lbl : String) : Except String BResult :=
  match env.activeTab with
  | none => Except.ok { success := false, error := some "No active tab" }
  | some _ =>
    match env.apiError with
    | some e => Except.error e
    | none =>
      if env.injectionReturns then
        let search := lowerStr lbl
        match env.labelTexts.find? (fun t => containsSub (lowerStr t) search) with
        | some t => Except.ok { success := true, info := some t.trim }
        | none =>
          match env.radioParents.find? (fun t => containsSub (lowerStr t) search) with
          | some t => Except.ok { success := true, info := some t.trim }
          | none =>
            Except.ok { success := false,
                        error := some ("Radio with label containing " ++ lbl ++ " not found") }
      else Except.ok { success := false, error := some "Script execution failed" }

/-- `fillSearch` (service-worker version); the auto-select click is a
timer-delayed best-effort heuristic and does not affect the result. -/
def swFillSearch (env : SWEnv) (sel : String) : Except String BResult :=
  match env.activeTab with
  | none => Except.ok { success := false, error := some "No active tab" }
  | some _ =>
    match env.apiError with
    | some e => Except.error e
    | none =>
      if env.injectionReturns then
        let subs := (sel.splitOn ",").map (fun s => s.trim)
        match subs.findSome? env.css with
        | none => Except.ok { success := false, error := some "Search input not found" }
        | some _ => Except.ok { success := true }
      else Except.ok { success := false, error := some "Script execution failed" }

/-- The `browser_action` variants dispatched by `executeBrowserAction`. -/
inductive BAction where
  | navigate (url : String)
  | screenshot
  | tabState
  | specificTabState (tabId : Nat)
  | executeScript (script : String)
  | click (selector : String)
  | fill (selector : String) (value : String)
  | pageState
  | selectOptionAct (selector : String) (value : String)
  | clickRadioAct (labelContains : String)
  | fillSearchAct (selector : String) (value : String) (selectFirst : Bool)
  | unknownAction (tag : String)
deriving DecidableEq, Repr

/-- The try/catch wrapper of `executeBrowserAction`: a thrown error becomes
a `{success:false, error}` envelope. -/
def swCatch : Except String BResult → BResult
  | Except.ok res => res
  | Except.error e => { success := false, error := some e }

/-- `executeBrowserAction` from src/unnamed/part_002: dispatch on the
action tag inside a try/catch that maps any thrown error to a
`{success:false, error}` envelope. -/
def executeBrowserAction (env : SWEnv) (a : BAction) : BResult :=
  swCatch <|
    match a with
    | .navigate _ => swNavigate env
    | .screenshot => swCaptureScreenshot env
    | .tabState => swGetTabState env
    | .specificTabState tid => swGetSpecificTabState env tid
    | .executeScript _ => swExecuteInTab env
    | .click sel => swClickInTab env sel
    | .fill sel v => swFillInTab env sel v
    | .pageState => swGetPageState env
    | .selectOptionAct sel v => swSelectOption env sel v
    | .clickRadioAct lbl => swClickRadio env lbl
    | .fillSearchAct sel _ _ => swFillSearch env sel
    | .unknownAction tag => Except.ok { success := false, error := some ("Unknown action: " ++ tag) }

/-- The action variants whose helper starts by querying the active tab
(everything except `screenshot`, `get_specific_tab_state` and unknown
tags). -/
def requiresActiveTab : BAction → Bool
  | .navigate _ => true
  | .tabState => true
  | .executeScript _ => true
  | .click _ => true
  | .fill _ _ => true
  | .pageState => true
  | .selectOptionAct _ _ => true
  | .clickRadioAct _ => true
  | .fillSearchAct _ _ _ => true
  | _ => false

/-! ## Page context watcher (C5) — src/content/page-watcher.js

A context snapshot keeps the fields the change detector compares plus an
opaque bag for the remaining per-site extracted fields (phone, email,
DOT/MC numbers, ...), which `hasContextChanged` never consults. -/

structure PageContext where
  site : String
  url : String
  leadId : Option String := none
  companyName : Option String := none
  extra : List (String × String) := []
deriving DecidableEq, Repr

/-- `hasContextChanged` from page-watcher.js. -/
def hasContextChanged (cur : Option PageContext) (newCtx : PageContext) : Bool :=
  match cur with
  | none => true
  | some c =>
    if c.site != newCtx.site then true
    else if c.url != newCtx.url then true
    else if newCtx.site == "close_lead" then
      if c.leadId != newCtx.leadId then true
      else if c.companyName != newCtx.companyName then true
      else false
    else false

/-- `sendContextUpdate`: emit (and replace the cached context) only when
forced or when `hasContextChanged`; otherwise keep the cached context and
emit nothing. Returns (emitted?, new cached context). -/
def sendContextUpdate (cur : Option PageContext) (ctx : PageContext) (force : Bool) :
    Bool × Option PageContext :=
  if !force && !hasContextChanged cur ctx then (false, cur)
  else (true, some ctx)

/-! ## Concrete fixtures used by counterexamples and witnesses -/

/-- An input that `getElementById "theId"` would find. -/
def elemA : Elem := { tagName := "INPUT", idAttr := "theId" }

/-- A page where no CSS selector matches but id `theId` resolves. -/
def cexPage : Page :=
  { css := fun _ => none,
    byId := fun s => if s == "theId" then some elemA else none,
    byName := fun _ => none,
    byFieldref := fun _ => none,
    labels := [],
    byPlaceholder := fun _ => none,
    buttons := [] }

/-- A target carrying a failing selector hint together with a matching id hint. -/
def cexTarget : Target := { selector := some ".missing", id := some "theId" }

def labeledInput : Elem := { tagName := "INPUT", idAttr := "dotField", nameAttr := "dot" }

/-- A page where only the label strategy can find `labeledInput`. -/
def w3Page : Page :=
  { css := fun _ => none,
    byId := fun s => if s == "dotField" then some labeledInput else none,
    byName := fun _ => none,
    byFieldref := fun _ => none,
    labels := [{ text := "DOT Number", htmlFor := some "dotField" }],
    byPlaceholder := fun _ => none,
    buttons := [] }

/-- A target with a stale id hint and a matching label hint (no selector). -/
def w3Target : Target := { id := some "ghost", label := some "dot" }

/-- Page oracle for the service-worker fill runs: only `#f` resolves. -/
def c4css (s : String) : Option Elem := if s == "#f" then some elemA else none

def yesRadioEl : InputEl :=
  { typ := "radio", idAttr := "insYes", nameAttr := "insurance",
    labelText := some "Yes", parentText := some "Insurance required? Yes" }

def noRadioEl : InputEl :=
  { typ := "radio", idAttr := "insNo", nameAttr := "insurance",
    labelText := some "No", parentText := some "Insurance required? No" }

/-- A page with one yes/no radio group labelled by its parent text. -/
def c9Page : RadioPage := { inputs := [yesRadioEl, noRadioEl] }

/-- A service-worker environment with no active tab. -/
def c2NoTabEnv : SWEnv :=
  { activeTab := none,
    tabsById := fun _ => none,
    captureOutcome := Except.error "capture failed",
    css := fun _ => none,
    selectAt := fun _ => none,
    labelTexts := [],
    radioParents := [] }

/-- A service-worker environment with an active tab whose page matches
nothing. -/
def c2TabEnv : SWEnv :=
  { activeTab := some { tabId := 1, url := "https://example.com", title := "Example" },
    tabsById := fun _ => none,
    captureOutcome := Except.ok "data:image/png;base64,",
    css := fun _ => none,
    selectAt := fun _ => none,
    labelTexts := [],
    radioParents := [] }

def ctxA : PageContext :=
  { site := "close_lead", url := "https://app.close.com/lead/abc",
    leadId := some "abc", companyName := some "LDJ" }

/-- Same identity as `ctxA`, differing only in a non-identity field. -/
def ctxB : PageContext := { ctxA with extra := [("phone", "555")] }

/-- Same URL/site as `ctxA` with a different lead id. -/
def ctxC : PageContext := { ctxA with leadId := some "xyz" }

def c8Tab : TabInfo := { tabId := 1, url := "https://app.close.com", title := "Close" }

def c8St : SPState := { currentTab := some c8Tab }

def pdfFile : UFile :=
  { name := "quote.pdf", mimeType := "application/pdf", size := 2048, bytes := [1, 2, 3] }

def bigFile : UFile :=
  { name := "huge.bin", mimeType := "application/pdf", size := 12 * 1024 * 1024, bytes := [] }

def exeFile : UFile :=
  { name := "run.exe", mimeType := "application/octet-stream", size := 5, bytes := [] }

/-! ## Helper lemmas -/

theorem updateFirst_append_not (pred : ChatMsg → Bool) (f : ChatMsg → ChatMsg)
    (l1 l2 : List ChatMsg) (h : ∀ m ∈ l1, pred m = false) :
    updateFirst pred f (l1 ++ l2) = l1 ++ updateFirst pred f l2 := by
  induction l1 with
  | nil => rfl
  | cons a t ih =>
    have ha : pred a = false := h a (List.mem_cons_self a t)
    simp only [List.cons_append, updateFirst, ha, Bool.false_eq_true, if_false, List.cons.injEq,
      true_and]
    exact ih fun m hm => h m (List.mem_cons_of_mem a hm)

theorem find?_append_not (p : ChatMsg → Bool) (l1 l2 : List ChatMsg)
    (h : ∀ m ∈ l1, p m = false) :
    (l1 ++ l2).find? p = l2.find? p := by
  induction l1 with
  | nil => rfl
  | cons a t ih =>
    have ha : p a = false := h a (List.mem_cons_self a t)
    simp only [List.cons_append, List.find?, ha]
    exact ih fun m hm => h m (List.mem_cons_of_mem a hm)

/-- The decision of `hasContextChanged` depends only on the compared fields
of the new context. -/
theorem hasContextChanged_congr (cur : Option PageContext) (a b : PageContext)
    (hs : a.site = b.site) (hu : a.url = b.url) (hl : a.leadId = b.leadId)
    (hc : a.companyName = b.companyName) :
    hasContextChanged cur a = hasContextChanged cur b := by
  cases cur with
  | none => rfl
  | some c => simp only [hasContextChanged, hs, hu, hl, hc]

/-- A context never differs from itself on the compared fields. -/
theorem hasContextChanged_self_fields (a b : PageContext)
    (hs : a.site = b.site) (hu : a.url = b.url) (hl : a.leadId = b.leadId)
    (hc : a.companyName = b.companyName) :
    hasContextChanged (some a) b = false := by
  simp [hasContextChanged, hs, hu, hl, hc]

/-! ## Claim theorems -/

/-- C10: every persisted snapshot of the conversation history contains at
most the 100 most recent messages (a suffix of the in-memory list of length
`min n 100`), so a restored history never exceeds 100 entries, while
`addMessage` grows the in-memory sequence without trimming. -/
theorem C10_history_cap :
    (∀ msgs : List ChatMsg, (saveMessages msgs).length = min msgs.length 100)
    ∧ (∀ msgs : List ChatMsg, List.IsSuffix (saveMessages msgs) msgs)
    ∧ (∀ msgs : List ChatMsg, (loadMessages {} (saveMessages msgs)).messages.length ≤ 100)
    ∧ (∀ (st : SPState) (m : ChatMsg), (addMessage st m).1.messages.length = st.messages.length + 1) := by
  refine ⟨fun msgs => ?_, fun msgs => List.drop_suffix _ _, fun msgs => ?_, fun st m => ?_⟩
  · simp only [saveMessages, List.length_drop]
    omega
  · simp only [loadMessages, saveMessages, List.nil_append, List.length_drop]
    omega
  · simp [addMessage]

/-- C5: an unforced context update is emitted only if the site changed, the
URL changed, or — on the lead-detail site — the lead id or company name
changed; two consecutive extractions agreeing on those fields emit at most
once, and a lead-id change on the lead-detail site emits. -/
theorem C5_context_dedup :
    (∀ c ctx : PageContext, (sendContextUpdate (some c) ctx false).1 = true →
      c.site ≠ ctx.site ∨ c.url ≠ ctx.url ∨
        (ctx.site = "close_lead" ∧ (c.leadId ≠ ctx.leadId ∨ c.companyName ≠ ctx.companyName)))
    ∧ (∀ (cur : Option PageContext) (ctx1 ctx2 : PageContext),
        ctx1.site = ctx2.site → ctx1.url = ctx2.url → ctx1.leadId = ctx2.leadId →
        ctx1.companyName = ctx2.companyName →
        ¬((sendContextUpdate cur ctx1 false).1 = true ∧
          (sendContextUpdate (sendContextUpdate cur ctx1 false).2 ctx2 false).1 = true))
    ∧ (∀ c ctx : PageContext, ctx.site = "close_lead" → c.leadId ≠ ctx.leadId →
        (sendContextUpdate (some c) ctx false).1 = true) := by
  refine ⟨fun c ctx h => ?_, fun cur ctx1 ctx2 hs hu hl hc => ?_, fun c ctx hs hl => ?_⟩
  · by_cases hch : hasContextChanged (some c) ctx = true
    · simp only [hasContextChanged] at hch
      split at hch
      · left
        intro he
        simp [he] at *
      · split at hch
        · right; left
          intro he
          simp [he] at *
        · split at hch
          · split at hch
            · refine Or.inr (Or.inr ⟨by simp_all [beq_iff_eq], Or.inl ?_⟩)
              intro he
              simp [he] at *
            · split at hch
              · refine Or.inr (Or.inr ⟨by simp_all [beq_iff_eq], Or.inr ?_⟩)
                intro he
                simp [he] at *
              · exact absurd hch (by simp)
          · exact absurd hch (by simp)
    · exfalso
      simp only [sendContextUpdate, Bool.not_false, Bool.true_and] at h
      rw [Bool.not_eq_true] at hch
      simp [hch] at h
  · rintro ⟨h1, h2⟩
    have hstep : sendContextUpdate cur ctx1 false = (true, some ctx1) := by
      by_cases hch : hasContextChanged cur ctx1 = true
      · simp [sendContextUpdate, hch]
      · rw [Bool.not_eq_true] at hch
        simp [sendContextUpdate, hch] at h1
    rw [hstep] at h2
    simp only [sendContextUpdate, Bool.not_false, Bool.true_and,
      hasContextChanged_self_fields ctx1 ctx2 hs hu hl hc] at h2
    simp at h2
  · have hch : hasContextChanged (some c) ctx = true := by
      simp only [hasContextChanged]
      split
      · rfl
      · split
        · rfl
        · split
          · split
            · rfl
            · exfalso
              simp_all [bne_iff_ne]
          · exfalso
            simp_all [beq_iff_eq]
    simp [sendContextUpdate, hch]

/-- C5 witness: over the concrete lead-page contexts, a same-identity
re-extraction is not emitted twice and a lead-id change is emitted. -/
theorem C5_context_dedup_witness :
    (¬((sendContextUpdate (some ctxA) ctxB false).1 = true ∧
       (sendContextUpdate (sendContextUpdate (some ctxA) ctxB false).2 ctxB false).1 = true))
    ∧ (sendContextUpdate (some ctxA) ctxC false).1 = true :=
  ⟨C5_context_dedup.2.1 (some ctxA) ctxB ctxB rfl rfl rfl rfl,
   C5_context_dedup.2.2 ctxA ctxC rfl (by decide)⟩

/-- C8: on close the side-panel transport schedules one reconnect after the
configured fixed delay while the retry counter is under the configured cap
(and none at the cap); on open it sends the current tab state and resets
the counter; hence a run of closes with no intervening open schedules at
most `cap - attempts` reconnects. The side-panel configuration is a 3000ms
delay and a cap of 5. -/
theorem C8_reconnect :
    (∀ (st : SPState) (t : TabInfo), st.currentTab = some t →
      wsOnOpen st = ({ st with connected := true, reconnectAttempts := 0 },
                     [Effect.sendFrame (OutFrame.tabStateFrame t)]))
    ∧ (∀ (cfg : TransportConfig) (st : SPState),
        st.reconnectAttempts < cfg.maxReconnectAttempts →
        wsOnClose cfg st = ({ st with connected := false,
                                      reconnectAttempts := st.reconnectAttempts + 1 },
                            [Effect.scheduleReconnect cfg.reconnectDelay]))
    ∧ (∀ (cfg : TransportConfig) (st : SPState),
        ¬st.reconnectAttempts < cfg.maxReconnectAttempts →
        wsOnClose cfg st = ({ st with connected := false }, []))
    ∧ (∀ (cfg : TransportConfig) (st : SPState) (n : Nat),
        closeRunSchedules cfg st n ≤ cfg.maxReconnectAttempts - st.reconnectAttempts)
    ∧ sidepanelConfig.reconnectDelay = 3000 ∧ sidepanelConfig.maxReconnectAttempts = 5 := by
  refine ⟨fun st t ht => ?_, fun cfg st h => ?_, fun cfg st h => ?_, fun cfg st n => ?_, rfl, rfl⟩
  · simp [wsOnOpen, ht]
  · simp [wsOnClose, h]
  · simp [wsOnClose, h]
  · induction n generalizing st with
    | zero => simp [closeRunSchedules]
    | succ k ih =>
      simp only [closeRunSchedules]
      by_cases h : st.reconnectAttempts < cfg.maxReconnectAttempts
      · simp only [wsOnClose, h, if_true, List.length_cons, List.length_nil]
        have := ih { st with connected := false, reconnectAttempts := st.reconnectAttempts + 1 }
        dsimp only at this ⊢
        omega
      · simp only [wsOnClose, h, if_false, List.length_nil]
        have := ih { st with connected := false }
        dsimp only at this ⊢
        omega

/-- C8 witness: from a fresh state with a known tab, nine consecutive
closes schedule at most five reconnects, and opening sends the tab state
and resets the counter. -/
theorem C8_reconnect_witness :
    wsOnOpen c8St = ({ c8St with connected := true, reconnectAttempts := 0 },
                     [Effect.sendFrame (OutFrame.tabStateFrame c8Tab)])
    ∧ closeRunSchedules sidepanelConfig c8St 9 ≤ 5 :=
  ⟨C8_reconnect.1 c8St c8Tab rfl, by
    have h := C8_reconnect.2.2.2.1 sidepanelConfig c8St 9
    exact le_trans h (by decide)⟩

/-- C3 counterexample: a target carrying a failing `selector` hint together
with an `id` hint that matches a real element resolves to nothing — the
lower-priority present hint is not tried after the selector fails, refuting
the unrestricted fallthrough reading of the claim. -/
theorem C3_resolver_counterexample :
    findElement cexPage cexTarget = none
    ∧ cexTarget.selector = some ".missing" ∧ cexPage.css ".missing" = none
    ∧ cexTarget.id = some "theId" ∧ cexPage.byId "theId" = some elemA :=
  ⟨rfl, rfl, rfl, rfl, rfl⟩

/-- C3 (amended): the resolver tries selector, id, name, fieldref, label,
placeholder, buttonText in that fixed order and the first hint whose query
yields an element wins; hints that are absent or fail contribute nothing
and the next one is tried — except that a present `selector` hint is
terminal: its result (matching or not) is returned without trying the
rest. In particular a target with a failing id hint and a matching label
hint resolves via the label strategy. -/
theorem C3_resolver_amended :
    (∀ (p : Page) (t : Target) (s : String), t.selector = some s → findElement p t = p.css s)
    ∧ (∀ (p : Page) (t : Target) (e : Elem), t.selector = none →
        t.id.bind p.byId = some e → findElement p t = some e)
    ∧ (∀ (p : Page) (t : Target) (e : Elem), t.selector = none →
        t.id.bind p.byId = none → t.name.bind p.byName = some e → findElement p t = some e)
    ∧ (∀ (p : Page) (t : Target) (e : Elem), t.selector = none →
        t.id.bind p.byId = none → t.name.bind p.byName = none →
        t.fieldref.bind p.byFieldref = some e → findElement p t = some e)
    ∧ (∀ (p : Page) (t : Target) (e : Elem), t.selector = none →
        t.id.bind p.byId = none → t.name.bind p.byName = none →
        t.fieldref.bind p.byFieldref = none →
        t.label.bind (findByLabel p) = some e → findElement p t = some e)
    ∧ (∀ (p : Page) (t : Target) (e : Elem), t.selector = none →
        t.id.bind p.byId = none → t.name.bind p.byName = none →
        t.fieldref.bind p.byFieldref = none → t.label.bind (findByLabel p) = none →
        t.placeholder.bind p.byPlaceholder = some e → findElement p t = some e)
    ∧ (∀ (p : Page) (t : Target) (e : Elem), t.selector = none →
        t.id.bind p.byId = none → t.name.bind p.byName = none →
        t.fieldref.bind p.byFieldref = none → t.label.bind (findByLabel p) = none →
        t.placeholder.bind p.byPlaceholder = none →
        t.buttonText.bind (findByButtonText p) = some e → findElement p t = some e)
    ∧ (∀ (p : Page) (t : Target), t.selector = none →
        t.id.bind p.byId = none → t.name.bind p.byName = none →
        t.fieldref.bind p.byFieldref = none → t.label.bind (findByLabel p) = none →
        t.placeholder.bind p.byPlaceholder = none →
        t.buttonText.bind (findByButtonText p) = none → findElement p t = none) := by
  refine ⟨fun p t s h => ?_, fun p t e h h1 => ?_, fun p t e h h1 h2 => ?_,
    fun p t e h h1 h2 h3 => ?_, fun p t e h h1 h2 h3 h4 => ?_,
    fun p t e h h1 h2 h3 h4 h5 => ?_, fun p t e h h1 h2 h3 h4 h5 h6 => ?_,
    fun p t h h1 h2 h3 h4 h5 h6 => ?_⟩ <;>
    simp [findElement, *]

/-- C3 witness: over `w3Page`, the target with a stale id hint and a
matching label hint (and no selector) resolves via the label strategy. -/
theorem C3_resolver_amended_witness :
    w3Target.selector = none ∧ w3Target.id.bind w3Page.byId = none
    ∧ w3Target.label.bind (findByLabel w3Page) = some labeledInput
    ∧ findElement w3Page w3Target = some labeledInput :=
  ⟨rfl, by decide, by decide,
   C3_resolver_amended.2.2.2.2.1 w3Page w3Target labeledInput rfl (by decide) rfl rfl (by decide)⟩

/-- C4 counterexample: the service-worker fill path succeeds, sets the
value, but never dispatches `blur` and reports no element descriptor —
refuting the claim for that fill code path. -/
theorem C4_fill_counterexample :
    (swFillField { activeTab := true, css := c4css } "#f" "hello").result.success = true
    ∧ (swFillField { activeTab := true, css := c4css } "#f" "hello").finalValue = some "hello"
    ∧ FillStep.fireEvent "blur" ∉ (swFillField { activeTab := true, css := c4css } "#f" "hello").steps
    ∧ (swFillField { activeTab := true, css := c4css } "#f" "hello").result.element = none := by
  decide

/-- C4 (amended): on the content-script fill path, a resolved target gets
the requested value via the (native-setter when available) assignment
followed by `input`, `change`, `blur` in order, and the success result
reports the element descriptor; on the service-worker fill path the value
is set and only `input` and `change` are dispatched (no blur), with a bare
success envelope carrying no descriptor. -/
theorem C4_fill_amended :
    (∀ (p : Page) (t : Target) (v : String) (hn : Bool) (e : Elem), findElement p t = some e →
      fillField p t v hn =
        { result := { success := true, element := some (describeElement e) },
          steps := [FillStep.focus,
                    if hn then FillStep.setValNative v else FillStep.setValDirect v,
                    FillStep.fireEvent "input", FillStep.fireEvent "change",
                    FillStep.fireEvent "blur"],
          finalValue := some v })
    ∧ (∀ (env : SWFillEnv) (sel v : String) (e : Elem),
        env.activeTab = true → env.injectionReturns = true → env.css sel = some e →
        swFillField env sel v =
          { result := { success := true },
            steps := [FillStep.setValNative v, FillStep.fireEvent "input",
                      FillStep.fireEvent "change"],
            finalValue := some v }) := by
  constructor
  · intro p t v hn e h
    simp [fillField, h]
  · intro env sel v e h1 h2 h3
    simp [swFillField, h1, h2, h3]

/-- C4 witness: both fill paths at concrete pages. -/
theorem C4_fill_amended_witness :
    fillField w3Page w3Target "12345" true =
      { result := { success := true, element := some (describeElement labeledInput) },
        steps := [FillStep.focus, FillStep.setValNative "12345", FillStep.fireEvent "input",
                  FillStep.fireEvent "change", FillStep.fireEvent "blur"],
        finalValue := some "12345" }
    ∧ swFillField { activeTab := true, css := c4css } "#f" "hello" =
      { result := { success := true },
        steps := [FillStep.setValNative "hello", FillStep.fireEvent "input",
                  FillStep.fireEvent "change"],
        finalValue := some "hello" } := by
  constructor
  · have h := C4_fill_amended.1 w3Page w3Target "12345" true labeledInput (by decide)
    simpa using h
  · exact C4_fill_amended.2 { activeTab := true, css := c4css } "#f" "hello" elemA rfl rfl rfl

/-- When the requested value is not yes-like, every termination of the
radio scan either fails outright or clicks a member whose label or parent
text contains "no". -/
theorem selectRadioGo_not_yes (p : RadioPage) (s : String) (v : JSVal)
    (hv : isYesVal v = false) :
    ∀ l : List InputEl,
      selectRadioGo p s v l = { success := false, error := some "Radio button not found" } ∨
      ∃ hit, memberHasNo hit = true ∧
        selectRadioGo p s v l =
          { success := true, selected := some "No", clicked := some hit } := by
  intro l
  induction l with
  | nil => left; rfl
  | cons a rest ih =>
    by_cases hmatch : (containsSub (memberLabel a) s || containsSub (memberParent a) s) = true
    · rcases hfind : (p.inputs.filter fun i => i.nameAttr == a.nameAttr).find?
          (fun i => (isYesVal v && memberHasYes i) || (!isYesVal v && memberHasNo i)) with _ | hit
      · simp only [selectRadioGo, hmatch, if_true, hfind]
        exact ih
      · right
        refine ⟨hit, ?_, ?_⟩
        · have hp := List.find?_some hfind
          simpa [hv] using hp
        · rw [selectRadioGo, if_pos hmatch]
          dsimp only
          rw [hfind]
          simp [hv]
    · have hm : (containsSub (memberLabel a) s || containsSub (memberParent a) s) = false := by
        rwa [Bool.not_eq_true] at hmatch
      simp only [selectRadioGo, hm, Bool.false_eq_true, if_false]
      exact ih

/-- C9: `selectRadio` treats the requested value as Yes exactly when it is
boolean `true` or the lowercase strings "yes"/"true"; for any other value
(including "Yes") whatever member it clicks is one whose label or parent
text contains "no", and on the concrete yes/no group the string "Yes"
clicks the No member while boolean `true` clicks the Yes member. -/
theorem C9_radio_value :
    (∀ v : JSVal, isYesVal v = true ↔
      (v = JSVal.jsBool true ∨ v = JSVal.jsStr "yes" ∨ v = JSVal.jsStr "true"))
    ∧ (∀ (p : RadioPage) (tl : String) (v : JSVal) (r : InputEl), isYesVal v = false →
        (selectRadioButton p tl v).clicked = some r →
        memberHasNo r = true ∧ (selectRadioButton p tl v).selected = some "No")
    ∧ (selectRadioButton c9Page "Insurance" (JSVal.jsStr "Yes")).clicked = some noRadioEl
    ∧ (selectRadioButton c9Page "Insurance" (JSVal.jsBool true)).clicked = some yesRadioEl := by
  refine ⟨fun v => ?_, fun p tl v r hv h => ?_, by decide, by decide⟩
  · cases v <;> simp [isYesVal]
  · rcases selectRadioGo_not_yes p (lowerStr tl) v hv
        (p.inputs.filter fun i => i.typ == "radio") with hemp | ⟨hit, hno, heq⟩
    · rw [selectRadioButton, hemp] at h
      simp at h
    · rw [selectRadioButton, heq] at h ⊢
      simp only [Option.some.injEq] at h
      subst h
      exact ⟨hno, rfl⟩

/-- C9 witness: the string "Yes" is not yes-like, and on the concrete group
the clicked member is the No radio. -/
theorem C9_radio_value_witness :
    isYesVal (JSVal.jsStr "Yes") = false ∧ memberHasNo noRadioEl = true ∧
      (selectRadioButton c9Page "Insurance" (JSVal.jsStr "Yes")).selected = some "No" := by
  have h := C9_radio_value.2.1 c9Page "Insurance" (JSVal.jsStr "Yes") noRadioEl
    (by decide) C9_radio_value.2.2.1
  exact ⟨by decide, h.1, h.2⟩

/-- Folding `response_chunk` events over a state whose last message is the
open stream (and whose earlier messages have other ids) appends every chunk,
in order, to that last message, and leaves the stream open. -/
theorem chunkFoldMessages (now : Nat) (sid : String) (cs : List String) :
    ∀ (s : SPState) (pre : List ChatMsg) (m : ChatMsg),
      s.messages = pre ++ [m] → s.currentStreamId = some sid →
      (∀ x ∈ pre, (x.id == some sid) = false) → (m.id == some sid) = true →
      (cs.foldl (fun acc c => (handleServerMessage now acc (InMsg.responseChunk c)).1) s).messages
          = pre ++ [{ m with content := cs.foldl (fun a c => a ++ c) m.content }]
        ∧ (cs.foldl (fun acc c => (handleServerMessage now acc (InMsg.responseChunk c)).1)
            s).currentStreamId = some sid := by
  induction cs with
  | nil =>
    intro s pre m hm hc _ _
    exact ⟨hm, hc⟩
  | cons c cs ih =>
    intro s pre m hm hc hpre hid
    have hstep : (handleServerMessage now s (InMsg.responseChunk c)).1
        = { s with messages := pre ++ [{ m with content := m.content ++ c }] } := by
      simp only [handleServerMessage, hc, hm,
        updateFirst_append_not (fun x => x.id == some sid)
          (fun x => { x with content := x.content ++ c }) pre [m] hpre]
      simp [updateFirst, hid]
    rw [List.foldl_cons, hstep]
    exact ih _ pre { m with content := m.content ++ c } rfl hc hpre hid

/-- C1: for any chunk sequence between a `response_start` and the matching
`response_end`, the streamed assistant message's content at stream end is
the ordered concatenation of the chunk contents (the message opens empty),
and the stream is closed afterwards — provided the generated stream id is
fresh among the existing message ids. -/
theorem C1_stream_concat (st : SPState) (now : Nat) (cs : List String)
    (hfresh : ∀ m ∈ st.messages, (m.id == some ("stream-" ++ toString now)) = false) :
    (((handleServerMessage now
        (cs.foldl (fun s c => (handleServerMessage now s (InMsg.responseChunk c)).1)
          (handleServerMessage now st InMsg.responseStart).1)
        InMsg.responseEnd).1).messages.find?
          (fun m => m.id == some ("stream-" ++ toString now))).map (fun m => m.content)
        = some (String.join cs)
      ∧ ((handleServerMessage now
          (cs.foldl (fun s c => (handleServerMessage now s (InMsg.responseChunk c)).1)
            (handleServerMessage now st InMsg.responseStart).1)
          InMsg.responseEnd).1).currentStreamId = none := by
  obtain ⟨hmsgs, hcur⟩ := chunkFoldMessages now ("stream-" ++ toString now) cs
    (handleServerMessage now st InMsg.responseStart).1 st.messages
    { role := "assistant", content := "", timestamp := now,
      id := some ("stream-" ++ toString now), streaming := true }
    rfl rfl hfresh (by simp)
  set X := cs.foldl (fun s c => (handleServerMessage now s (InMsg.responseChunk c)).1)
      (handleServerMessage now st InMsg.responseStart).1 with hXdef
  have hend : (handleServerMessage now X InMsg.responseEnd).1
      = { X with currentStreamId := none, isStreaming := false } := by
    simp only [handleServerMessage, hcur]
  refine ⟨?_, by rw [hend]⟩
  rw [hend]
  show (X.messages.find? (fun m => m.id == some ("stream-" ++ toString now))).map
      (fun m => m.content) = some (String.join cs)
  rw [hmsgs, find?_append_not _ _ _ hfresh]
  simp [List.find?, String.join]

/-- C1 witness: two concrete chunks concatenate. -/
theorem C1_stream_concat_witness :
    (((handleServerMessage 7
        (["Hel", "lo"].foldl (fun s c => (handleServerMessage 7 s (InMsg.responseChunk c)).1)
          (handleServerMessage 7 ({} : SPState) InMsg.responseStart).1)
        InMsg.responseEnd).1).messages.find?
          (fun m => m.id == some ("stream-" ++ toString 7))).map (fun m => m.content)
        = some (String.join ["Hel", "lo"]) :=
  (C1_stream_concat {} 7 ["Hel", "lo"] (by simp)).1

/-- C6: a `search_leads` tool_call followed by a tool_result carrying a
one-element `leads` list yields exactly one new tool-status entry, opened
as `loading` and resolved to `complete` with summary "Found 1 lead"; the
result resolves the invocation currently marked current, and a tool_result
with no current invocation is a no-op — provided the generated tool id is
fresh among the existing entries. -/
theorem C6_tool_lifecycle (st : SPState) (now : Nat) (args lead : JVal)
    (hfresh : ∀ m ∈ st.messages, (m.toolId == some ("tool-" ++ toString now)) = false) :
    ((handleServerMessage now st (InMsg.toolCall "search_leads" args)).1.messages
        = st.messages ++ [{ role := "assistant", content := "", timestamp := now,
                            mtype := some "tool", toolId := some ("tool-" ++ toString now),
                            toolKey := some "search_leads", toolStatus := some "loading",
                            toolArgs := some args }])
      ∧ (handleServerMessage now st (InMsg.toolCall "search_leads" args)).1.currentToolId
          = some ("tool-" ++ toString now)
      ∧ ((handleServerMessage now
            (handleServerMessage now st (InMsg.toolCall "search_leads" args)).1
            (InMsg.toolResult (JVal.jobj [("leads", JVal.jarr [lead])]))).1.messages
          = st.messages ++ [{ role := "assistant", content := "", timestamp := now,
                              mtype := some "tool", toolId := some ("tool-" ++ toString now),
                              toolKey := some "search_leads", toolStatus := some "complete",
                              toolSummary := some "Found 1 lead", toolArgs := some args }])
      ∧ (handleServerMessage now
            (handleServerMessage now st (InMsg.toolCall "search_leads" args)).1
            (InMsg.toolResult (JVal.jobj [("leads", JVal.jarr [lead])]))).1.currentToolId = none
      ∧ (∀ s : SPState, s.currentToolId = none →
          handleServerMessage now s (InMsg.toolResult (JVal.jobj [("leads", JVal.jarr [lead])]))
            = (s, [])) := by
  refine ⟨rfl, rfl, ?_, rfl, fun s hs => by simp [handleServerMessage, hs]⟩
  show updateFirst (fun m => m.toolId == some ("tool-" ++ toString now))
      (fun m => { m with
        toolStatus := some (if toolResultIsError (JVal.jobj [("leads", JVal.jarr [lead])])
                            then "error" else "complete"),
        toolSummary := some (summarizeToolResult (m.toolKey.getD "")
                              (JVal.jobj [("leads", JVal.jarr [lead])])) })
      (st.messages ++ [{ role := "assistant", content := "", timestamp := now,
                         mtype := some "tool", toolId := some ("tool-" ++ toString now),
                         toolKey := some "search_leads", toolStatus := some "loading",
                         toolArgs := some args }])
      = st.messages ++ [{ role := "assistant", content := "", timestamp := now,
                          mtype := some "tool", toolId := some ("tool-" ++ toString now),
                          toolKey := some "search_leads", toolStatus := some "complete",
                          toolSummary := some "Found 1 lead", toolArgs := some args }]
  rw [updateFirst_append_not _ _ _ _ hfresh]
  have hpred : (({ role := "assistant", content := "", timestamp := now,
                   mtype := some "tool", toolId := some ("tool-" ++ toString now),
                   toolKey := some "search_leads", toolStatus := some "loading",
                   toolArgs := some args } : ChatMsg).toolId
      == some ("tool-" ++ toString now)) = true := by simp
  simp only [updateFirst, hpred, if_true]
  have hsum : summarizeToolResult ((some "search_leads").getD "")
      (JVal.jobj [("leads", JVal.jarr [lead])]) = "Found 1 lead" := by
    have hts : toString (1 : Nat) = "1" := by decide
    calc summarizeToolResult ((some "search_leads").getD "")
          (JVal.jobj [("leads", JVal.jarr [lead])])
        = "Found " ++ toString (1 : Nat) ++ " lead" ++ "" := rfl
      _ = "Found " ++ "1" ++ " lead" ++ "" := by rw [hts]
      _ = "Found 1 lead" := rfl
  rw [hsum]
  rfl

/-- C6 witness: the lifecycle on the empty state at time 5. -/
theorem C6_tool_lifecycle_witness :
    ((handleServerMessage 5 ({} : SPState)
        (InMsg.toolCall "search_leads" (JVal.jobj [("query", JVal.jstr "LDJ")]))).1.messages
      = [{ role := "assistant", content := "", timestamp := 5, mtype := some "tool",
           toolId := some ("tool-" ++ toString 5), toolKey := some "search_leads",
           toolStatus := some "loading", toolArgs := some (JVal.jobj [("query", JVal.jstr "LDJ")]) }])
    ∧ ((handleServerMessage 5
          (handleServerMessage 5 ({} : SPState)
            (InMsg.toolCall "search_leads" (JVal.jobj [("query", JVal.jstr "LDJ")]))).1
          (InMsg.toolResult (JVal.jobj [("leads",
            JVal.jarr [JVal.jobj [("name", JVal.jstr "LDJ")]])]))).1.messages
      = [{ role := "assistant", content := "", timestamp := 5, mtype := some "tool",
           toolId := some ("tool-" ++ toString 5), toolKey := some "search_leads",
           toolStatus := some "complete", toolSummary := some "Found 1 lead",
           toolArgs := some (JVal.jobj [("query", JVal.jstr "LDJ")]) }]) := by
  have h := C6_tool_lifecycle {} 5 (JVal.jobj [("query", JVal.jstr "LDJ")])
    (JVal.jobj [("name", JVal.jstr "LDJ")]) (by simp)
  exact ⟨by simpa using h.1, by simpa using h.2.2.1⟩

/-- C2 counterexample: a `browser_action` frame is received and forwarded,
but when the websocket has closed by the time the executor's response
arrives, zero `browser_action_result` frames are sent — not exactly one. -/
theorem C2_browser_action_counterexample :
    handleServerMessage 0 ({} : SPState) (InMsg.browserAction "a1")
      = ({}, [Effect.forwardToServiceWorker "a1"])
    ∧ browserActionCallbackFrames false "a1" (some (JVal.jobj [("success", JVal.jbool true)])) = []
    ∧ (browserActionCallbackFrames false "a1"
        (some (JVal.jobj [("success", JVal.jbool true)]))).length = 0 :=
  ⟨rfl, rfl, rfl⟩

/-- A caught-or-returned helper outcome always yields a definitive
envelope: success, or failure with an error message. -/
theorem execTotalAux (x : Except String BResult)
    (hx : ∀ res, x = Except.ok res → (res.success = true ∨ res.error.isSome = true)) :
    (swCatch x).success = true ∨ (swCatch x).error.isSome = true := by
  cases x with
  | ok res => simpa [swCatch] using hx res rfl
  | error e => right; rfl

/-- Every service-worker action helper that returns (rather than throws)
returns success or an error message. -/
theorem swHelpersOk (env : SWEnv) :
    (∀ res, swNavigate env = Except.ok res → res.success = true ∨ res.error.isSome = true)
    ∧ (∀ res, swCaptureScreenshot env = Except.ok res → res.success = true ∨ res.error.isSome = true)
    ∧ (∀ res, swGetTabState env = Except.ok res → res.success = true ∨ res.error.isSome = true)
    ∧ (∀ tid res, swGetSpecificTabState env tid = Except.ok res → res.success = true ∨ res.error.isSome = true)
    ∧ (∀ res, swExecuteInTab env = Except.ok res → res.success = true ∨ res.error.isSome = true)
    ∧ (∀ sel res, swClickInTab env sel = Except.ok res → res.success = true ∨ res.error.isSome = true)
    ∧ (∀ sel v res, swFillInTab env sel v = Except.ok res → res.success = true ∨ res.error.isSome = true)
    ∧ (∀ res, swGetPageState env = Except.ok res → res.success = true ∨ res.error.isSome = true)
    ∧ (∀ sel v res, swSelectOption env sel v = Except.ok res → res.success = true ∨ res.error.isSome = true)
    ∧ (∀ lbl res, swClickRadio env lbl = Except.ok res → res.success = true ∨ res.error.isSome = true)
    ∧ (∀ sel res, swFillSearch env sel = Except.ok res → res.success = true ∨ res.error.isSome = true) := by
  refine ⟨fun res h => ?_, fun res h => ?_, fun res h => ?_, fun tid res h => ?_,
    fun res h => ?_, fun sel res h => ?_, fun sel v res h => ?_, fun res h => ?_,
    fun sel v res h => ?_, fun lbl res h => ?_, fun sel res h => ?_⟩ <;>
  · simp only [swNavigate, swCaptureScreenshot, swGetTabState, swGetSpecificTabState,
      swExecuteInTab, swClickInTab, swFillInTab, swGetPageState, swSelectOption,
      swClickRadio, swFillSearch, swFillField] at h
    repeat' split at h
    all_goals (first | (injection h with h2; subst h2; simp) | injection h)

/-- C2 (amended): while the websocket is still open at response time, the
callback sends exactly one `browser_action_result` carrying the original
actionId (if it closed meanwhile, nothing is sent); and the executor maps
every local failure — unknown action tag, missing active tab, missing
element, lost script result, and thrown chrome errors — to a
`{success:false, error}` envelope, never leaving a result without a
definitive answer. -/
theorem C2_browser_action_amended :
    (∀ (aid : String) (resp : Option JVal),
      ∃ res, browserActionCallbackFrames true aid resp = [OutFrame.browserActionResult aid res])
    ∧ (∀ (env : SWEnv) (tag : String),
        executeBrowserAction env (BAction.unknownAction tag)
          = { success := false, error := some ("Unknown action: " ++ tag) })
    ∧ (∀ (env : SWEnv) (a : BAction), env.activeTab = none → requiresActiveTab a = true →
        executeBrowserAction env a = { success := false, error := some "No active tab" })
    ∧ (∀ (env : SWEnv) (sel : String) (t : TabInfo), env.activeTab = some t →
        env.apiError = none → env.injectionReturns = true → env.css sel = none →
        executeBrowserAction env (BAction.click sel)
            = { success := false, error := some "Element not found" }
          ∧ ∀ v, executeBrowserAction env (BAction.fill sel v)
            = { success := false, error := some "Element not found" })
    ∧ (∀ (env : SWEnv) (sel : String) (t : TabInfo), env.activeTab = some t →
        env.apiError = none → env.injectionReturns = false →
        executeBrowserAction env (BAction.click sel)
          = { success := false, error := some "Script execution failed" })
    ∧ (∀ (env : SWEnv) (sel e : String) (t : TabInfo), env.activeTab = some t →
        env.apiError = some e →
        executeBrowserAction env (BAction.click sel) = { success := false, error := some e })
    ∧ (∀ (env : SWEnv) (a : BAction),
        (executeBrowserAction env a).success = true
          ∨ (executeBrowserAction env a).error.isSome = true) := by
  refine ⟨fun aid resp => ⟨_, rfl⟩, fun env tag => rfl, fun env a h ha => ?_,
    fun env sel t ht he hi hcss => ⟨?_, fun v => ?_⟩, fun env sel t ht he hi => ?_,
    fun env sel e t ht he => ?_, fun env a => ?_⟩
  · cases a <;> simp_all [executeBrowserAction, swCatch, swNavigate, swGetTabState,
      swExecuteInTab, swClickInTab, swFillInTab, swGetPageState, swSelectOption, swClickRadio,
      swFillSearch, requiresActiveTab]
  · simp [executeBrowserAction, swCatch, swClickInTab, ht, he, hi, hcss]
  · simp [executeBrowserAction, swCatch, swFillInTab, swFillField, ht, he, hi, hcss]
  · simp [executeBrowserAction, swCatch, swClickInTab, ht, he, hi]
  · simp [executeBrowserAction, swCatch, swClickInTab, ht, he]
  · cases a with
    | navigate url => exact execTotalAux (swNavigate env) (swHelpersOk env).1
    | screenshot => exact execTotalAux (swCaptureScreenshot env) (swHelpersOk env).2.1
    | tabState => exact execTotalAux (swGetTabState env) (swHelpersOk env).2.2.1
    | specificTabState tid =>
      exact execTotalAux (swGetSpecificTabState env tid) ((swHelpersOk env).2.2.2.1 tid)
    | executeScript s => exact execTotalAux (swExecuteInTab env) (swHelpersOk env).2.2.2.2.1
    | click sel => exact execTotalAux (swClickInTab env sel) ((swHelpersOk env).2.2.2.2.2.1 sel)
    | fill sel v =>
      exact execTotalAux (swFillInTab env sel v) ((swHelpersOk env).2.2.2.2.2.2.1 sel v)
    | pageState => exact execTotalAux (swGetPageState env) (swHelpersOk env).2.2.2.2.2.2.2.1
    | selectOptionAct sel v =>
      exact execTotalAux (swSelectOption env sel v) ((swHelpersOk env).2.2.2.2.2.2.2.2.1 sel v)
    | clickRadioAct lbl =>
      exact execTotalAux (swClickRadio env lbl) ((swHelpersOk env).2.2.2.2.2.2.2.2.2.1 lbl)
    | fillSearchAct sel v b =>
      exact execTotalAux (swFillSearch env sel) ((swHelpersOk env).2.2.2.2.2.2.2.2.2.2 sel)
    | unknownAction tag => exact Or.inr rfl

/-- C2 witness: one result frame is produced while open; unknown tags,
a missing tab and a missing element all come back as error envelopes. -/
theorem C2_browser_action_amended_witness :
    (∃ res, browserActionCallbackFrames true "a1" (some (JVal.jobj [("ok", JVal.jbool true)]))
        = [OutFrame.browserActionResult "a1" res])
    ∧ executeBrowserAction c2NoTabEnv (BAction.unknownAction "dance")
        = { success := false, error := some ("Unknown action: " ++ "dance") }
    ∧ executeBrowserAction c2NoTabEnv (BAction.navigate "https://example.com")
        = { success := false, error := some "No active tab" }
    ∧ executeBrowserAction c2TabEnv (BAction.click "#gone")
        = { success := false, error := some "Element not found" } :=
  ⟨C2_browser_action_amended.1 "a1" (some (JVal.jobj [("ok", JVal.jbool true)])),
   C2_browser_action_amended.2.1 c2NoTabEnv "dance",
   C2_browser_action_amended.2.2.1 c2NoTabEnv (BAction.navigate "https://example.com") rfl rfl,
   (C2_browser_action_amended.2.2.2.1 c2TabEnv "#gone"
      { tabId := 1, url := "https://example.com", title := "Example" } rfl rfl rfl rfl).1⟩

/-- The pending list built by `handleFiles` is the previous list followed by
the accepted files, encoded, in order. -/
theorem handleFiles_pending_eq (files : List UFile) :
    ∀ pending : List PendingFile,
      (handleFiles pending files).1 = pending ++ (files.filter fileAccepted).map toPendingFile := by
  induction files with
  | nil => intro pending; simp [handleFiles]
  | cons f rest ih =>
    intro pending
    by_cases h1 : f.size > maxFileSize
    · have hacc : fileAccepted f = false := by simp [fileAccepted, h1]
      simp [handleFiles, h1, hacc, ih]
    · by_cases h2 : f.mimeType ∈ allowedTypes
      · have hacc : fileAccepted f = true := by simp [fileAccepted, h1, h2]
        simp [handleFiles, h1, h2, hacc, ih]
      · have hacc : fileAccepted f = false := by simp [fileAccepted, h2]
        simp [handleFiles, h1, h2, hacc, ih]

/-- Every rejected file contributes its alert message. -/
theorem handleFiles_alerts (files : List UFile) :
    ∀ (pending : List PendingFile) (f : UFile), f ∈ files → fileAccepted f = false →
      ("File \"" ++ f.name ++ "\" is too large. Max size is 10MB.") ∈ (handleFiles pending files).2
      ∨ ("File \"" ++ f.name ++ "\" is not supported. Use PDF, PNG, or JPG.")
          ∈ (handleFiles pending files).2 := by
  induction files with
  | nil => intro pending f hf; simp at hf
  | cons g rest ih =>
    intro pending f hf hacc
    rcases List.mem_cons.mp hf with hfg | hfr
    · subst hfg
      by_cases h1 : f.size > maxFileSize
      · have he : (handleFiles pending (f :: rest)).2
            = ("File \"" ++ f.name ++ "\" is too large. Max size is 10MB.")
                :: (handleFiles pending rest).2 := by
          simp [handleFiles, h1]
        rw [he]
        exact Or.inl (List.mem_cons_self _ _)
      · by_cases h2 : f.mimeType ∈ allowedTypes
        · exfalso
          have hft : fileAccepted f = true := by simp [fileAccepted, h1, h2]
          rw [hft] at hacc
          exact Bool.true_eq_false.mp hacc
        · have he : (handleFiles pending (f :: rest)).2
              = ("File \"" ++ f.name ++ "\" is not supported. Use PDF, PNG, or JPG.")
                  :: (handleFiles pending rest).2 := by
            simp [handleFiles, h1, h2]
          rw [he]
          exact Or.inr (List.mem_cons_self _ _)
    · by_cases h1 : g.size > maxFileSize
      · have he : (handleFiles pending (g :: rest)).2
            = ("File \"" ++ g.name ++ "\" is too large. Max size is 10MB.")
                :: (handleFiles pending rest).2 := by
          simp [handleFiles, h1]
        rw [he]
        rcases ih pending f hfr hacc with h | h
        · exact Or.inl (List.mem_cons_of_mem _ h)
        · exact Or.inr (List.mem_cons_of_mem _ h)
      · by_cases h2 : g.mimeType ∈ allowedTypes
        · have he : (handleFiles pending (g :: rest)).2
              = (handleFiles (pending ++ [toPendingFile g]) rest).2 := by
            simp [handleFiles, h1, h2]
          rw [he]
          exact ih (pending ++ [toPendingFile g]) f hfr hacc
        · have he : (handleFiles pending (g :: rest)).2
              = ("File \"" ++ g.name ++ "\" is not supported. Use PDF, PNG, or JPG.")
                  :: (handleFiles pending rest).2 := by
            simp [handleFiles, h1, h2]
          rw [he]
          rcases ih pending f hfr hacc with h | h
          · exact Or.inl (List.mem_cons_of_mem _ h)
          · exact Or.inr (List.mem_cons_of_mem _ h)

/-- C7: oversized or disallowed attachments raise a user-visible alert and
never enter the pending list (hence never any outbound frame); accepted
attachments are encoded (base64 data URL with MIME type and display name)
and shipped in the `files` array of the next sent `message` frame, which
also clears the pending list. -/
theorem C7_file_attachment :
    (∀ (pending : List PendingFile) (files : List UFile),
      (handleFiles pending files).1 = pending ++ (files.filter fileAccepted).map toPendingFile)
    ∧ (∀ (pending : List PendingFile) (files : List UFile) (f : UFile),
        f ∈ files → fileAccepted f = false →
        ("File \"" ++ f.name ++ "\" is too large. Max size is 10MB.")
            ∈ (handleFiles pending files).2
          ∨ ("File \"" ++ f.name ++ "\" is not supported. Use PDF, PNG, or JPG.")
            ∈ (handleFiles pending files).2)
    ∧ (∀ (pending : List PendingFile) (files : List UFile) (f : UFile),
        f ∈ files → fileAccepted f = false → toPendingFile f ∉ pending →
        toPendingFile f ∉ (handleFiles pending files).1)
    ∧ (∀ (pending : List PendingFile) (files : List UFile) (f : UFile),
        f ∈ files → fileAccepted f = true → toPendingFile f ∈ (handleFiles pending files).1)
    ∧ (∀ f : UFile, toPendingFile f
        = { name := f.name, mimeType := f.mimeType,
            base64 := "data:" ++ f.mimeType ++ ";base64," ++ base64Encode f.bytes,
            size := f.size })
    ∧ (∀ (st : SPState) (content : String) (now : Nat),
        st.connected = true → st.pendingFiles.isEmpty = false →
        (sendMessage st content now).2
            = [OutFrame.messageFrame
                (if content == "" then "Please analyze this file." else content)
                st.currentTab (some st.pendingFiles)]
          ∧ (sendMessage st content now).1.pendingFiles = []) := by
  refine ⟨fun pending files => handleFiles_pending_eq files pending,
    fun pending files f => handleFiles_alerts files pending f,
    fun pending files f hf hacc hnp hmem => ?_,
    fun pending files f hf hacc => ?_, fun f => rfl,
    fun st content now h1 h2 => ?_⟩
  · rw [handleFiles_pending_eq] at hmem
    rcases List.mem_append.mp hmem with h | h
    · exact hnp h
    · obtain ⟨g, hg, hge⟩ := List.mem_map.mp h
      have hgacc : fileAccepted g = true := (List.mem_filter.mp hg).2
      have hsize : g.size = f.size := congrArg PendingFile.size hge
      have hmime : g.mimeType = f.mimeType := congrArg PendingFile.mimeType hge
      rw [fileAccepted, hsize, hmime, ← fileAccepted] at hgacc
      rw [hgacc] at hacc
      exact Bool.true_eq_false.mp hacc
  · rw [handleFiles_pending_eq]
    exact List.mem_append_right _ (List.mem_map_of_mem _ (List.mem_filter.mpr ⟨hf, hacc⟩))
  · constructor
    · simp [sendMessage, h1, h2]
    · simp [sendMessage, h1, h2]

/-- C7 witness: a 12MB file is rejected with an alert and absent from the
sent frame, while a small PDF is encoded and shipped. -/
theorem C7_file_attachment_witness :
    (("File \"" ++ bigFile.name ++ "\" is too large. Max size is 10MB.")
          ∈ (handleFiles [] [bigFile, pdfFile, exeFile]).2
        ∨ ("File \"" ++ bigFile.name ++ "\" is not supported. Use PDF, PNG, or JPG.")
          ∈ (handleFiles [] [bigFile, pdfFile, exeFile]).2)
    ∧ toPendingFile bigFile ∉ (handleFiles [] [bigFile, pdfFile, exeFile]).1
    ∧ toPendingFile pdfFile ∈ (handleFiles [] [bigFile, pdfFile, exeFile]).1
    ∧ (sendMessage { connected := true,
                     pendingFiles := (handleFiles [] [bigFile, pdfFile, exeFile]).1 }
          "check this" 3).2
        = [OutFrame.messageFrame (if "check this" == "" then "Please analyze this file."
            else "check this") none (some (handleFiles [] [bigFile, pdfFile, exeFile]).1)] := by
  refine ⟨C7_file_attachment.2.1 [] [bigFile, pdfFile, exeFile] bigFile (by simp) (by decide),
    C7_file_attachment.2.2.1 [] [bigFile, pdfFile, exeFile] bigFile (by simp) (by decide)
      (by simp),
    C7_file_attachment.2.2.2.1 [] [bigFile, pdfFile, exeFile] pdfFile (by simp) (by decide), ?_⟩
  exact (C7_file_attachment.2.2.2.2.2
    { connected := true, pendingFiles := (handleFiles [] [bigFile, pdfFile, exeFile]).1 }
    "check this" 3 rfl (by decide)).1

end RMS
